/-
Verification development for the live-streamer service (Rust, actix).
The definitions below are a shallow embedding of the source files
src/validator.rs, src/event_bus.rs, src/websocket.rs and src/actor.rs:
pure Rust functions become Lean functions, `&mut self` state is threaded
explicitly, `chrono::DateTime<Utc>` timestamps are modelled as `Int`
seconds (the code only ever compares whole seconds via
`Duration::num_seconds`), `Uuid` values are modelled as `Nat`
(`Uuid::default()`, the nil uuid, becomes `0`), and `HashMap` becomes a
function into `Option`.
-/
import Mathlib

/-- Result of a validation rule, from `enum ValidationResult` in
src/validator.rs. -/
inductive ValidationResult where
  | Allow
  | Ignore
  | Warn (msg : String)
deriving DecidableEq, Repr

/-- Per-user rate-limit state, from `struct UserStats` in src/validator.rs.
`message_count` is a `u32` in the source; its increments are modelled on
`Nat` (one increment per accepted message at least `cooldown_seconds`
apart cannot reach `u32::MAX` in any realistic run, and overflow panics
in debug builds). -/
structure UserStats where
  last_message_time : Int
  message_count : Nat
  warning_count : Nat
deriving DecidableEq, Repr

/-- `HashMap<String, UserStats>` modelled extensionally. -/
def StatsMap : Type := String → Option UserStats

/-- `HashMap::insert` (overwrite semantics). -/
def mupdate (m : StatsMap) (k : String) (v : UserStats) : StatsMap :=
  fun x => if x = k then some v else m x

/-- The five lookups the validator performs on a rule's
`serde_json::Value` parameters.  Each field is the result of the
corresponding `parameters.get(key).and_then(as_*)` chain in
src/validator.rs; `none` models a missing key or a value of the wrong
JSON type.  `words` elements are `word.as_str()` results, so a
non-string array element is `none`. -/
structure RuleParams where
  words : Option (List (Option String))
  max_messages_per_minute : Option Nat
  cooldown_seconds : Option Nat
  min_length : Option Nat
  max_length : Option Nat
deriving DecidableEq, Repr

/-- Parameters object with no recognized keys. -/
def noParams : RuleParams :=
  { words := none, max_messages_per_minute := none,
    cooldown_seconds := none, min_length := none, max_length := none }

/-- `enum RuleType` in src/validator.rs. -/
inductive RuleType where
  | Blacklist
  | ContentFilter
  | RateLimit
  | UserLevel
  | Custom
deriving DecidableEq, Repr

/-- `struct ValidationRule` in src/validator.rs. -/
structure ValidationRule where
  id : String
  name : String
  rule_type : RuleType
  enabled : Bool
  params : RuleParams
deriving DecidableEq, Repr

/-- The `as i64` cast applied to `cooldown_seconds: u64` in
`check_rate_limit` (two's-complement reinterpretation). -/
def i64cast (n : Nat) : Int :=
  if n % 18446744073709551616 < 9223372036854775808
  then ((n % 18446744073709551616 : Nat) : Int)
  else ((n % 18446744073709551616 : Nat) : Int) - 18446744073709551616

/-- Resolved `max_messages_per_minute`:
`parameters.get(..).and_then(as_u64).unwrap_or(10) as u32`. -/
def maxEff (p : RuleParams) : Nat :=
  (p.max_messages_per_minute.getD 10) % 4294967296

/-- Resolved `cooldown_seconds`, including the `as i64` cast used at the
comparison site: `...and_then(as_u64).unwrap_or(3)`. -/
def cooldownEff (p : RuleParams) : Int :=
  i64cast (p.cooldown_seconds.getD 3)

/-- Resolved `min_length` (`unwrap_or(1) as usize`; the u64→usize cast is
the identity on 64-bit targets). -/
def minLenEff (p : RuleParams) : Nat := p.min_length.getD 1

/-- Resolved `max_length` (`unwrap_or(200) as usize`). -/
def maxLenEff (p : RuleParams) : Nat := p.max_length.getD 200

/-- Does `pat` occur at the head of the second list? -/
def charsLead : List Char → List Char → Bool
  | [], _ => true
  | _ :: _, [] => false
  | a :: ps, b :: ss => a == b && charsLead ps ss

/-- Does `pat` occur contiguously anywhere in the second list? -/
def charsWithin (pat : List Char) : List Char → Bool
  | [] => pat.isEmpty
  | b :: ss => charsLead pat (b :: ss) || charsWithin pat ss

/-- Rust `str::contains(&str)`: substring containment.  On valid UTF-8,
byte-level substring search coincides with character-level contiguous
search, so it is modelled on the character lists. -/
def strContains (s pat : String) : Bool :=
  charsWithin pat.data s.data

/-- Scan of the `words` array in `TextValidator::check_blacklist`:
first matching word (in list order) wins; non-string entries are
skipped. -/
def blacklistScan (text : String) : List (Option String) → ValidationResult
  | [] => ValidationResult.Allow
  | none :: rest => blacklistScan text rest
  | some w :: rest =>
    if strContains text w
    then ValidationResult.Warn ("包含敏感词: " ++ w)
    else blacklistScan text rest

/-- `TextValidator::check_blacklist` (src/validator.rs:131). -/
def check_blacklist (p : RuleParams) (text : String) : ValidationResult :=
  match p.words with
  | some ws => blacklistScan text ws
  | none => ValidationResult.Allow

/-- The part of `TextValidator::check_rate_limit` after the cooldown
check (src/validator.rs:178-190): the per-minute window counter and the
`last_message_time` update.  `us` is the entry for `u` already present
in `m`. -/
def rateStep (p : RuleParams) (u : String) (now : Int) (us : UserStats)
    (m : StatsMap) : ValidationResult × StatsMap :=
  if now - us.last_message_time < 60 then
    let us1 : UserStats :=
      { us with message_count := us.message_count + 1 }
    if us1.message_count > maxEff p then
      (ValidationResult.Warn "发言过于频繁，请稍后再试", mupdate m u us1)
    else
      (ValidationResult.Allow,
       mupdate m u { us1 with last_message_time := now })
  else
    (ValidationResult.Allow,
     mupdate m u { us with message_count := 1, last_message_time := now })

/-- `TextValidator::check_rate_limit` (src/validator.rs:144-191).
A missing entry is created by `entry(..).or_insert(..)` with
`last_message_time = now` and `message_count = 0`, and the cooldown
check is skipped for it (`is_new_user`); an existing entry is checked
against the cooldown first and the map is left untouched on `Ignore`. -/
def check_rate_limit (p : RuleParams) (u : String) (now : Int)
    (m : StatsMap) : ValidationResult × StatsMap :=
  match m u with
  | none =>
    let us0 : UserStats :=
      { last_message_time := now, message_count := 0, warning_count := 0 }
    rateStep p u now us0 (mupdate m u us0)
  | some us =>
    if now - us.last_message_time < cooldownEff p
    then (ValidationResult.Ignore, m)
    else rateStep p u now us m

/-- `TextValidator::check_content_filter` (src/validator.rs:193-215).
Note that the source measures `text.len()`, the UTF-8 byte length. -/
def check_content_filter (p : RuleParams) (text : String) : ValidationResult :=
  if text.utf8ByteSize < minLenEff p then ValidationResult.Ignore
  else if text.utf8ByteSize > maxLenEff p then
    ValidationResult.Warn "消息过长，请简化内容"
  else ValidationResult.Allow

/-- Event envelope, from `struct EventMetadata` in src/events.rs.
`Uuid` fields are modelled as `Nat`. -/
structure EventMetadata where
  id : Nat
  timestamp : Int
  session_id : Option Nat
  user_id : Option String
deriving DecidableEq, Repr

/-- `struct TextInputEvent` in src/events.rs. -/
structure TextInputEvent where
  metadata : EventMetadata
  text : String
  language : Option String
deriving DecidableEq, Repr

/-- `struct LLMResponseEvent` in src/events.rs. -/
structure LLMResponseEvent where
  metadata : EventMetadata
  response : String
  model : String
  tokens_used : Option Nat
deriving DecidableEq, Repr

/-- `struct TTSResponseEvent` in src/events.rs (audio bytes as `List Nat`). -/
structure TTSResponseEvent where
  metadata : EventMetadata
  audio_data : List Nat
  text : String
  voice : String
deriving DecidableEq, Repr

/-- A `serde_json::Value` as constructed by this codebase.  `tenths n`
models the decimal literal n/10 appearing in the source (0.7, 0.8);
`num` models integer-valued numbers. -/
inductive JVal where
  | null
  | bool (b : Bool)
  | num (n : Int)
  | tenths (n : Int)
  | str (s : String)
  | obj (fields : List (String × JVal))

/-- `struct AnimationEvent` in src/events.rs.  `duration: Option<f32>`
holds only the literals 2.0 and 3.0 in this codebase and is modelled by
its integral value. -/
structure AnimationEvent where
  metadata : EventMetadata
  animation_type : String
  duration : Option Nat
  parameters : JVal

/-- `TextValidator::apply_rule` (src/validator.rs:116-129): dispatch on
the rule kind; `UserLevel` and `Custom` are unimplemented stubs that
allow everything; only `RateLimit` touches the stats map. -/
def apply_rule (r : ValidationRule) (e : TextInputEvent) (u : String)
    (now : Int) (m : StatsMap) : ValidationResult × StatsMap :=
  match r.rule_type with
  | RuleType.Blacklist => (check_blacklist r.params e.text, m)
  | RuleType.RateLimit => check_rate_limit r.params u now m
  | RuleType.ContentFilter => (check_content_filter r.params e.text, m)
  | RuleType.UserLevel => (ValidationResult.Allow, m)
  | RuleType.Custom => (ValidationResult.Allow, m)

/-- The rule loop of `TextValidator::validate` (src/validator.rs:96-113):
disabled rules are skipped, the first enabled rule returning a
non-`Allow` result ends the loop with that result, and state changes of
rules that returned `Allow` persist. -/
def validateRules : List ValidationRule → TextInputEvent → String → Int →
    StatsMap → ValidationResult × StatsMap
  | [], _, _, _, m => (ValidationResult.Allow, m)
  | r :: rs, e, u, now, m =>
    if r.enabled then
      match apply_rule r e u now m with
      | (ValidationResult.Allow, m1) => validateRules rs e u now m1
      | res => res
    else validateRules rs e u now m

/-- `struct TextValidator` in src/validator.rs. -/
structure TextValidator where
  rules : List ValidationRule
  user_stats : StatsMap

/-- The user key used by `validate`:
`event.metadata.user_id.as_ref().unwrap_or(&"anonymous")`. -/
def userKey (e : TextInputEvent) : String :=
  e.metadata.user_id.getD "anonymous"

/-- `TextValidator::validate` (src/validator.rs:88-114); the mutation of
`self.user_stats` is returned as the second component. -/
def TextValidator.validate (v : TextValidator) (e : TextInputEvent)
    (now : Int) : ValidationResult × StatsMap :=
  validateRules v.rules e (userKey e) now v.user_stats

/-- First default rule (src/validator.rs:56-64). -/
def blacklistRule : ValidationRule :=
  { id := "blacklist", name := "敏感词黑名单",
    rule_type := RuleType.Blacklist, enabled := true,
    params := { noParams with
      words := some [some "垃圾", some "骗子", some "广告", some "刷单"] } }

/-- Second default rule (src/validator.rs:65-74). -/
def rateLimitRule : ValidationRule :=
  { id := "rate_limit", name := "频率限制",
    rule_type := RuleType.RateLimit, enabled := true,
    params := { noParams with
      max_messages_per_minute := some 10, cooldown_seconds := some 3 } }

/-- Third default rule (src/validator.rs:75-84). -/
def lengthFilterRule : ValidationRule :=
  { id := "length_filter", name := "长度过滤",
    rule_type := RuleType.ContentFilter, enabled := true,
    params := { noParams with min_length := some 1, max_length := some 200 } }

/-- `TextValidator::default_rules` (src/validator.rs:54-86). -/
def default_rules : List ValidationRule :=
  [blacklistRule, rateLimitRule, lengthFilterRule]

/-- `TextValidator::new` (src/validator.rs:47-52). -/
def TextValidator.new : TextValidator :=
  { rules := default_rules, user_stats := fun _ => none }

/-- `struct EventBus` (src/event_bus.rs): it holds only the two optional
target addresses — it has no validator field and no reference to
`TextValidator` (which no module of the crate ever constructs or
calls).  The addresses are modelled by their presence. -/
structure EventBus where
  digital_human_actor : Option Unit
  websocket_manager : Option Unit
deriving DecidableEq, Repr

/-- A message the bus hands to one of its registered targets. -/
inductive BusOut where
  | toConversation (e : TextInputEvent)
  | toRegistryLLM (e : LLMResponseEvent)
deriving DecidableEq, Repr

/-- `impl Handler<TextInputEvent> for EventBus`
(src/event_bus.rs:143-157): the event is forwarded unmodified to the
`DigitalHumanActor` whenever one is registered; nothing else happens. -/
def EventBus.handle_text_input (b : EventBus) (e : TextInputEvent) :
    List BusOut :=
  match b.digital_human_actor with
  | some _ => [BusOut.toConversation e]
  | none => []

/-- `impl Handler<LLMResponseEvent> for EventBus`
(src/event_bus.rs:159-173): forwarded unmodified to the
`WebSocketManager` whenever one is registered. -/
def EventBus.handle_llm (b : EventBus) (e : LLMResponseEvent) :
    List BusOut :=
  match b.websocket_manager with
  | some _ => [BusOut.toRegistryLLM e]
  | none => []

/-- `unwrap_or_default()` on the envelope's optional session id: the nil
uuid is modelled as `0`. -/
def sidOfMeta (md : EventMetadata) : Nat := md.session_id.getD 0

/-- The `connections: HashMap<Uuid, (String, Addr<WebSocketSessionActor>)>`
of `WebSocketManager` (src/websocket.rs): session id ↦ user id.  Each
connection's exclusively-owned output worker is identified by its
session id, so a handoff to a worker is recorded as a
`(session id, payload)` pair. -/
def ConnMap : Type := Nat → Option String

/-- The `serde_json::json!` envelope built by
`Handler<LLMResponseEvent> for WebSocketManager` (src/websocket.rs:142-149),
before `to_string()`. -/
def llmEnvelope (e : LLMResponseEvent) : JVal :=
  JVal.obj
    [("type", JVal.str "llm_response"),
     ("data", JVal.obj
       [("response", JVal.str e.response),
        ("model", JVal.str e.model),
        ("timestamp", JVal.num e.metadata.timestamp)])]

/-- The envelope built by `Handler<TTSResponseEvent> for WebSocketManager`
(src/websocket.rs:299-307). -/
def ttsEnvelope (e : TTSResponseEvent) : JVal :=
  JVal.obj
    [("type", JVal.str "tts_response"),
     ("data", JVal.obj
       [("text", JVal.str e.text),
        ("voice", JVal.str e.voice),
        ("audio_data_length", JVal.num (Int.ofNat e.audio_data.length)),
        ("timestamp", JVal.num e.metadata.timestamp)])]

/-- Serialization of `duration: Option<f32>` (None ↦ null). -/
def durJson : Option Nat → JVal
  | none => JVal.null
  | some d => JVal.num (Int.ofNat d)

/-- The envelope built by `Handler<AnimationEvent> for WebSocketManager`
(src/websocket.rs:332-340). -/
def animEnvelope (e : AnimationEvent) : JVal :=
  JVal.obj
    [("type", JVal.str "animation"),
     ("data", JVal.obj
       [("animation_type", JVal.str e.animation_type),
        ("duration", durJson e.duration),
        ("parameters", e.parameters),
        ("timestamp", JVal.num e.metadata.timestamp)])]

/-- `impl Handler<LLMResponseEvent> for WebSocketManager`
(src/websocket.rs:135-165): look up the connection for the event's
session id; if present, hand the serialized envelope to that session's
output worker; if absent, only a warning is logged.  The connection map
is returned unchanged in both cases. -/
def wsHandleLLM (conns : ConnMap) (e : LLMResponseEvent) :
    List (Nat × JVal) × ConnMap :=
  let sid := sidOfMeta e.metadata
  match conns sid with
  | some _ => ([(sid, llmEnvelope e)], conns)
  | none => ([], conns)

/-- `impl Handler<TTSResponseEvent> for WebSocketManager`
(src/websocket.rs:292-323). -/
def wsHandleTTS (conns : ConnMap) (e : TTSResponseEvent) :
    List (Nat × JVal) × ConnMap :=
  let sid := sidOfMeta e.metadata
  match conns sid with
  | some _ => ([(sid, ttsEnvelope e)], conns)
  | none => ([], conns)

/-- `impl Handler<AnimationEvent> for WebSocketManager`
(src/websocket.rs:325-356). -/
def wsHandleAnim (conns : ConnMap) (e : AnimationEvent) :
    List (Nat × JVal) × ConnMap :=
  let sid := sidOfMeta e.metadata
  match conns sid with
  | some _ => ([(sid, animEnvelope e)], conns)
  | none => ([], conns)

/-- `serde_json::Value::get(key)`: field lookup on objects, `None` on
every other value. -/
def jget (j : JVal) (k : String) : Option JVal :=
  match j with
  | JVal.obj fields =>
    match fields.find? (fun f => f.1 = k) with
    | some f => some f.2
    | none => none
  | _ => none

/-- `Value::as_str()`. -/
def asStr : JVal → Option String
  | JVal.str s => some s
  | _ => none

/-- `json.get(key).and_then(as_str)`. -/
def jgetStr (j : JVal) (k : String) : Option String :=
  (jget j k).bind asStr

/-- A fresh envelope as built by `EventMetadata::default()` with
session/user ids overridden (src/websocket.rs:188-192): the random
`Uuid::new_v4` id and `Utc::now()` timestamp are supplied as
arguments. -/
def mkMeta (fresh : Nat) (now : Int) (sid : Option Nat)
    (uid : Option String) : EventMetadata :=
  { id := fresh, timestamp := now, session_id := sid, user_id := uid }

/-- `impl Handler<HandleTextMessage> for WebSocketManager`
(src/websocket.rs:175-221).  `parsed` is the outcome of
`serde_json::from_str::<serde_json::Value>(&msg.text)` (the external
JSON parser): `some j` on success, `none` on a parse error.  The result
is the list of events the handler publishes to the bus; branches that
only log publish nothing. -/
def handle_text_message (sid : Nat) (uid : String) (text : String)
    (parsed : Option JVal) (fresh : Nat) (now : Int) : List TextInputEvent :=
  match parsed with
  | some j =>
    match jgetStr j "type" with
    | some t =>
      if t = "text_input" then
        match jgetStr j "content" with
        | some c =>
          [{ metadata := mkMeta fresh now (some sid) (some uid),
             text := c, language := jgetStr j "language" }]
        | none => []
      else []
    | none => []
  | none =>
    [{ metadata := mkMeta fresh now (some sid) (some uid),
       text := text, language := none }]

/-- `struct ConversationMessage` in src/actor.rs. -/
structure ConversationMessage where
  role : String
  content : String
  timestamp : Int
deriving DecidableEq, Repr

/-- `struct SessionData` in src/actor.rs. -/
structure SessionData where
  session_id : Nat
  user_id : String
  conversation_history : List ConversationMessage
  last_activity : Int
deriving DecidableEq, Repr

/-- `sessions: HashMap<Uuid, SessionData>` of the actor. -/
def SessionMap : Type := Nat → Option SessionData

/-- `struct DigitalHumanActor` (src/actor.rs); the uuid, personality and
bus address play no role in the handlers modelled here. -/
structure DigitalHumanActor where
  name : String
  personality : String
  sessions : SessionMap

/-- `DigitalHumanActor::add_message_to_history` (src/actor.rs:67-77):
a silent no-op when the session id is unknown. -/
def add_message_to_history (ss : SessionMap) (sid : Nat)
    (role content : String) (now : Int) : SessionMap :=
  match ss sid with
  | some sd =>
    fun x =>
      if x = sid then
        some { sd with
          conversation_history :=
            sd.conversation_history ++ [⟨role, content, now⟩],
          last_activity := now }
      else ss x
  | none => ss

/-- The reply string built in `process_text_input` (src/actor.rs:91-94),
a pure function of the persona name and the input text. -/
def replyFor (name text : String) : String :=
  "Hello! I'm " ++ name ++ ", and I received your message: '" ++ text ++ "'"

/-- `DigitalHumanActor::generate_animation_for_response`
(src/actor.rs:123-146). -/
def generate_animation_for_response (response : String) (sid : Nat)
    (uid : Option String) (fresh : Nat) (now : Int) : AnimationEvent :=
  let t :=
    if strContains response "Hello" || strContains response "Hi" then "wave"
    else if strContains response "?" then "thinking"
    else "talk"
  { metadata := mkMeta fresh now (some sid) uid,
    animation_type := t,
    duration := some 2,
    parameters := JVal.obj
      [("intensity", JVal.tenths 8), ("loop", JVal.bool false)] }

/-- `DigitalHumanActor::generate_emotion_for_response`
(src/actor.rs:148-171). -/
def generate_emotion_for_response (response : String) (sid : Nat)
    (uid : Option String) (fresh : Nat) (now : Int) : AnimationEvent :=
  let emo :=
    if strContains response "!" then "excited"
    else if strContains response "?" then "curious"
    else "friendly"
  { metadata := mkMeta fresh now (some sid) uid,
    animation_type := "expression_" ++ emo,
    duration := some 3,
    parameters := JVal.obj
      [("emotion", JVal.str emo), ("strength", JVal.tenths 7)] }

/-- An event sent by the actor through the bus. -/
inductive DHOut where
  | llm (e : LLMResponseEvent)
  | anim (e : AnimationEvent)

/-- `DigitalHumanActor::process_text_input` (src/actor.rs:79-121).
The handler stamps several fresh envelopes; their random ids are
modelled as `fresh`, `fresh + 1`, `fresh + 2`, and the `Utc::now()`
calls inside one handler invocation are identified as `now`. -/
def process_text_input (a : DigitalHumanActor) (e : TextInputEvent)
    (now : Int) (fresh : Nat) : DigitalHumanActor × List DHOut :=
  let sid := sidOfMeta e.metadata
  let ss1 := add_message_to_history a.sessions sid "user" e.text now
  let response := replyFor a.name e.text
  let ss2 := add_message_to_history ss1 sid "assistant" response now
  let llmEv : LLMResponseEvent :=
    { metadata := mkMeta fresh now (some sid) e.metadata.user_id,
      response := response, model := "digital_human", tokens_used := none }
  let animEv :=
    generate_animation_for_response response sid e.metadata.user_id
      (fresh + 1) now
  let emoEv :=
    generate_emotion_for_response response sid e.metadata.user_id
      (fresh + 2) now
  ({ a with sessions := ss2 }, [DHOut.llm llmEv, DHOut.anim animEv, DHOut.anim emoEv])

/-- A run of the rate-limit rule over the timestamps of successive
messages from one user, collecting the per-message verdicts. -/
def processTimes (p : RuleParams) (u : String) : StatsMap → List Int →
    List ValidationResult × StatsMap
  | m, [] => ([], m)
  | m, t :: ts =>
    let r := check_rate_limit p u t m
    let rest := processTimes p u r.2 ts
    (r.1 :: rest.1, rest.2)

/-- Consecutive gaps of a timestamp list, starting from `prev`, all lie
in the half-open interval [cd, 60). -/
def chainOk (cd : Int) : Int → List Int → Bool
  | _, [] => true
  | prev, t :: ts =>
    decide (cd ≤ t - prev) && decide (t - prev < 60) && chainOk cd t ts

/-- Last element of a timestamp list, defaulting to `t`. -/
def lastT (t : Int) : List Int → Int
  | [] => t
  | x :: xs => lastT x xs

/-- A 67-character Chinese text; its UTF-8 encoding takes 201 bytes. -/
def longZhText : String := String.mk (List.replicate 67 '你')

/-- The blacklisted text-input event used to exercise the router. -/
def badTextEvent : TextInputEvent :=
  ⟨⟨1, 0, some 42, some "u1"⟩, "垃圾", none⟩

lemma mupdate_same (m : StatsMap) (k : String) (v : UserStats) :
    mupdate m k v k = some v := by
  simp [mupdate]

lemma mupdate_mupdate (m : StatsMap) (k : String) (v1 v2 : UserStats) :
    mupdate (mupdate m k v1) k v2 = mupdate m k v2 := by
  funext x
  unfold mupdate
  by_cases h : x = k <;> simp [h]

lemma rate_allow_step (p : RuleParams) (u : String) (now : Int)
    (us : UserStats) (m : StatsMap) (hm : m u = some us)
    (h1 : cooldownEff p ≤ now - us.last_message_time)
    (h2 : now - us.last_message_time < 60)
    (h3 : us.message_count + 1 ≤ maxEff p) :
    check_rate_limit p u now m =
      (ValidationResult.Allow,
       mupdate m u ⟨now, us.message_count + 1, us.warning_count⟩) := by
  have hnc : ¬ (now - us.last_message_time < cooldownEff p) := by omega
  have hng : ¬ (us.message_count + 1 > maxEff p) := by omega
  simp [check_rate_limit, hm, hnc, rateStep, h2, hng]

lemma rate_warn_step (p : RuleParams) (u : String) (now : Int)
    (us : UserStats) (m : StatsMap) (hm : m u = some us)
    (h1 : cooldownEff p ≤ now - us.last_message_time)
    (h2 : now - us.last_message_time < 60)
    (h3 : us.message_count + 1 > maxEff p) :
    check_rate_limit p u now m =
      (ValidationResult.Warn "发言过于频繁，请稍后再试",
       mupdate m u
         ⟨us.last_message_time, us.message_count + 1, us.warning_count⟩) := by
  have hnc : ¬ (now - us.last_message_time < cooldownEff p) := by omega
  simp [check_rate_limit, hm, hnc, rateStep, h2, h3]

lemma rate_reset_step (p : RuleParams) (u : String) (now : Int)
    (us : UserStats) (m : StatsMap) (hm : m u = some us)
    (h1 : cooldownEff p ≤ now - us.last_message_time)
    (h2 : 60 ≤ now - us.last_message_time) :
    check_rate_limit p u now m =
      (ValidationResult.Allow, mupdate m u ⟨now, 1, us.warning_count⟩) := by
  have hnc : ¬ (now - us.last_message_time < cooldownEff p) := by omega
  have hn60 : ¬ (now - us.last_message_time < 60) := by omega
  simp [check_rate_limit, hm, hnc, rateStep, hn60]

lemma rate_first_allow (p : RuleParams) (u : String) (now : Int)
    (m : StatsMap) (hm : m u = none) (hmax : 1 ≤ maxEff p) :
    check_rate_limit p u now m =
      (ValidationResult.Allow, mupdate m u ⟨now, 1, 0⟩) := by
  have h60 : (now : Int) - now < 60 := by omega
  have hng : ¬ (0 + 1 > maxEff p) := by omega
  simp [check_rate_limit, hm, rateStep, h60, hng, mupdate_mupdate]

lemma processTimes_run (p : RuleParams) (u : String) (ts : List Int) :
    ∀ (m : StatsMap) (t : Int) (c w : Nat),
      m u = some ⟨t, c, w⟩ →
      chainOk (cooldownEff p) t ts = true →
      c + ts.length ≤ maxEff p →
      (processTimes p u m ts).1 =
          List.replicate ts.length ValidationResult.Allow ∧
        (processTimes p u m ts).2 u = some ⟨lastT t ts, c + ts.length, w⟩ := by
  induction ts with
  | nil =>
    intro m t c w hm _ _
    exact ⟨by simp [processTimes], by simpa [processTimes, lastT] using hm⟩
  | cons t1 ts ih =>
    intro m t c w hm hchain hle
    simp [chainOk, Bool.and_eq_true, decide_eq_true_eq] at hchain
    obtain ⟨⟨h1, h2⟩, h3⟩ := hchain
    simp only [List.length_cons] at hle
    have hstep := rate_allow_step p u t1 ⟨t, c, w⟩ m hm h1 h2
      (show c + 1 ≤ maxEff p by omega)
    have hm' : mupdate m u ⟨t1, c + 1, w⟩ u = some ⟨t1, c + 1, w⟩ :=
      mupdate_same m u _
    have ihr := ih (mupdate m u ⟨t1, c + 1, w⟩) t1 (c + 1) w hm' h3 (by omega)
    have harith : c + (ts.length + 1) = c + 1 + ts.length := by omega
    constructor
    · simp [processTimes, hstep, ihr.1, List.replicate_succ]
    · simp only [processTimes, hstep, lastT, List.length_cons, harith]
      exact ihr.2

lemma processTimes_append (p : RuleParams) (u : String) (xs ys : List Int) :
    ∀ m : StatsMap,
      processTimes p u m (xs ++ ys) =
        ((processTimes p u m xs).1 ++
           (processTimes p u (processTimes p u m xs).2 ys).1,
         (processTimes p u (processTimes p u m xs).2 ys).2) := by
  induction xs with
  | nil => intro m; simp [processTimes]
  | cons x xs ih => intro m; simp [processTimes, ih]

lemma chainOk_append (cd : Int) (xs ys : List Int) :
    ∀ t : Int,
      chainOk cd t (xs ++ ys) =
        (chainOk cd t xs && chainOk cd (lastT t xs) ys) := by
  induction xs with
  | nil => intro t; simp [chainOk, lastT]
  | cons x xs ih => intro t; simp [chainOk, lastT, ih, Bool.and_assoc]

lemma validateRules_append (xs ys : List ValidationRule) (e : TextInputEvent)
    (u : String) (now : Int) :
    ∀ m : StatsMap,
      validateRules (xs ++ ys) e u now m =
        (let q := validateRules xs e u now m
         if q.1 = ValidationResult.Allow
         then validateRules ys e u now q.2 else q) := by
  induction xs with
  | nil => intro m; simp [validateRules]
  | cons r rs ih =>
    intro m
    by_cases hr : r.enabled
    · rcases ha : apply_rule r e u now m with ⟨res, m1⟩
      cases res with
      | Allow => simp [validateRules, hr, ha, ih]
      | Ignore => simp [validateRules, hr, ha]
      | Warn s => simp [validateRules, hr, ha]
    · simp [validateRules, hr, ih]

/-- C2: a message evaluated by the RateLimit rule strictly within
`cooldownSeconds` of the user's stored `lastMessageTime` yields `Ignore`
and leaves the whole stats map — in particular that user's
`lastMessageTime` and in-window counter — unchanged. -/
theorem c2_cooldown_ignore_is_pure (p : RuleParams) (u : String)
    (now : Int) (m : StatsMap) (us : UserStats)
    (hm : m u = some us)
    (hcd : now - us.last_message_time < cooldownEff p) :
    check_rate_limit p u now m = (ValidationResult.Ignore, m) := by
  simp [check_rate_limit, hm, hcd]

theorem c2_cooldown_ignore_is_pure_witness :
    check_rate_limit noParams "u1" 2 (mupdate (fun _ => none) "u1" ⟨0, 1, 0⟩)
      = (ValidationResult.Ignore, mupdate (fun _ => none) "u1" ⟨0, 1, 0⟩) :=
  c2_cooldown_ignore_is_pure noParams "u1" 2
    (mupdate (fun _ => none) "u1" ⟨0, 1, 0⟩) ⟨0, 1, 0⟩
    (mupdate_same _ _ _) (by decide)

/-- C3: the first message ever evaluated by the RateLimit rule for a
user (no stored `UserStats`) is allowed — never ignored, never warned —
and a fresh record is created with `lastMessageTime = now`.  The side
condition `1 ≤ maxEff p` asks that the resolved
`max_messages_per_minute` is nonzero; the only configuration the
program ever builds (`rateLimitRule`, value 10) satisfies it. -/
theorem c3_first_message_always_allow (p : RuleParams) (u : String)
    (now : Int) (m : StatsMap)
    (hm : m u = none) (hmax : 1 ≤ maxEff p) :
    check_rate_limit p u now m =
      (ValidationResult.Allow, mupdate m u ⟨now, 1, 0⟩) :=
  rate_first_allow p u now m hm hmax

theorem c3_first_message_always_allow_witness :
    check_rate_limit rateLimitRule.params "u1" 5 (fun _ => none)
      = (ValidationResult.Allow, mupdate (fun _ => none) "u1" ⟨5, 1, 0⟩) :=
  c3_first_message_always_allow rateLimitRule.params "u1" 5
    (fun _ => none) rfl (by decide)

/-- C4: for a user with stored stats, when the elapsed time since
`lastMessageTime` is at least the cooldown and below 60s, the rule
increments the in-window counter and returns `Warn` exactly when the
incremented counter exceeds `max_messages_per_minute` (on `Warn`,
`lastMessageTime` stays put); when the elapsed time is 60s or more (and
the cooldown, which the program configures to 3s, does not exceed 60s),
the counter resets to 1 and the message is allowed.  Consequently a
(max+1)-th message whose consecutive gaps all lie in [cooldown, 60) —
i.e. max+1 accepted messages inside a rolling 60-second window — is
warned, not allowed. -/
theorem c4_rate_window_counter (p : RuleParams) (u : String) :
    (∀ (now : Int) (m : StatsMap) (us : UserStats),
      m u = some us →
      cooldownEff p ≤ now - us.last_message_time →
      now - us.last_message_time < 60 →
      check_rate_limit p u now m =
        (if us.message_count + 1 > maxEff p
         then (ValidationResult.Warn "发言过于频繁，请稍后再试",
               mupdate m u
                 ⟨us.last_message_time, us.message_count + 1,
                  us.warning_count⟩)
         else (ValidationResult.Allow,
               mupdate m u
                 ⟨now, us.message_count + 1, us.warning_count⟩))) ∧
    (∀ (now : Int) (m : StatsMap) (us : UserStats),
      m u = some us →
      cooldownEff p ≤ 60 →
      60 ≤ now - us.last_message_time →
      check_rate_limit p u now m =
        (ValidationResult.Allow, mupdate m u ⟨now, 1, us.warning_count⟩)) ∧
    (∀ (t0 : Int) (ts : List Int) (tw : Int) (m0 : StatsMap),
      m0 u = none →
      1 ≤ maxEff p →
      ts.length = maxEff p - 1 →
      chainOk (cooldownEff p) t0 (ts ++ [tw]) = true →
      (processTimes p u m0 (t0 :: (ts ++ [tw]))).1 =
        List.replicate (maxEff p) ValidationResult.Allow ++
          [ValidationResult.Warn "发言过于频繁，请稍后再试"]) := by
  refine ⟨?_, ?_, ?_⟩
  · intro now m us hm h1 h2
    by_cases h3 : us.message_count + 1 > maxEff p
    · rw [if_pos h3]
      exact rate_warn_step p u now us m hm h1 h2 h3
    · rw [if_neg h3]
      exact rate_allow_step p u now us m hm h1 h2 (by omega)
  · intro now m us hm hcd h60
    exact rate_reset_step p u now us m hm (by omega) h60
  · intro t0 ts tw m0 hm0 hmax hlen hchain
    rw [chainOk_append, Bool.and_eq_true] at hchain
    obtain ⟨hc1, hc2⟩ := hchain
    simp [chainOk, Bool.and_eq_true, decide_eq_true_eq] at hc2
    obtain ⟨hw1, hw2⟩ := hc2
    have hfirst := rate_first_allow p u t0 m0 hm0 hmax
    have hm1 : mupdate m0 u ⟨t0, 1, 0⟩ u = some ⟨t0, 1, 0⟩ :=
      mupdate_same _ _ _
    have hrun := processTimes_run p u ts (mupdate m0 u ⟨t0, 1, 0⟩) t0 1 0
      hm1 hc1 (by omega)
    have hfin : (processTimes p u (mupdate m0 u ⟨t0, 1, 0⟩) ts).2 u =
        some ⟨lastT t0 ts, maxEff p, 0⟩ := by
      have harith : 1 + ts.length = maxEff p := by omega
      rw [hrun.2, harith]
    have hwarn := rate_warn_step p u tw ⟨lastT t0 ts, maxEff p, 0⟩
      (processTimes p u (mupdate m0 u ⟨t0, 1, 0⟩) ts).2 hfin hw1 hw2
      (show maxEff p + 1 > maxEff p by omega)
    have hmsucc : maxEff p = ts.length + 1 := by omega
    simp [processTimes, hfirst, processTimes_append, hrun.1, hwarn,
      hmsucc, List.replicate_succ]

theorem c4_rate_window_counter_witness :
    (processTimes rateLimitRule.params "u1" (fun _ => none)
        (0 :: ([3, 6, 9, 12, 15, 18, 21, 24, 27] ++ [30]))).1 =
      List.replicate (maxEff rateLimitRule.params) ValidationResult.Allow ++
        [ValidationResult.Warn "发言过于频繁，请稍后再试"] :=
  (c4_rate_window_counter rateLimitRule.params "u1").2.2 0
    [3, 6, 9, 12, 15, 18, 21, 24, 27] 30 (fun _ => none)
    rfl (by decide) (by decide) (by decide)

/-- C5: `validate` walks the configured rules in declaration order:
a disabled rule is skipped with no effect; the chain of an appended
suffix runs only if the whole prefix allowed (threading the prefix's
state); the first enabled rule returning a non-`Allow` result decides
the call, with the rules after it never evaluated (neither their result
nor their state effects appear); an empty chain — hence a chain whose
enabled rules all allow — returns `Allow`; and `validate` is exactly
this loop over `v.rules` started from `v.user_stats`. -/
theorem c5_rule_chain_short_circuit :
    (∀ (r : ValidationRule) (rs : List ValidationRule) (e : TextInputEvent)
        (u : String) (now : Int) (m : StatsMap),
      r.enabled = false →
      validateRules (r :: rs) e u now m = validateRules rs e u now m) ∧
    (∀ (xs ys : List ValidationRule) (e : TextInputEvent) (u : String)
        (now : Int) (m : StatsMap),
      validateRules (xs ++ ys) e u now m =
        (let q := validateRules xs e u now m
         if q.1 = ValidationResult.Allow
         then validateRules ys e u now q.2 else q)) ∧
    (∀ (xs : List ValidationRule) (r : ValidationRule)
        (ys : List ValidationRule) (e : TextInputEvent) (u : String)
        (now : Int) (m m1 m2 : StatsMap) (res : ValidationResult),
      validateRules xs e u now m = (ValidationResult.Allow, m1) →
      r.enabled = true →
      apply_rule r e u now m1 = (res, m2) →
      res ≠ ValidationResult.Allow →
      validateRules (xs ++ r :: ys) e u now m = (res, m2)) ∧
    (∀ (e : TextInputEvent) (u : String) (now : Int) (m : StatsMap),
      validateRules [] e u now m = (ValidationResult.Allow, m)) ∧
    (∀ (v : TextValidator) (e : TextInputEvent) (now : Int),
      v.validate e now =
        validateRules v.rules e (userKey e) now v.user_stats) := by
  refine ⟨?_, ?_, ?_, ?_, ?_⟩
  · intro r rs e u now m hr
    simp [validateRules, hr]
  · intro xs ys e u now m
    exact validateRules_append xs ys e u now m
  · intro xs r ys e u now m m1 m2 res hxs hr ha hne
    rw [validateRules_append, hxs]
    simp only [if_pos rfl]
    cases res with
    | Allow => exact absurd rfl hne
    | Ignore => simp [validateRules, hr, ha]
    | Warn s => simp [validateRules, hr, ha]
  · intro e u now m
    rfl
  · intro v e now
    rfl

theorem c5_rule_chain_short_circuit_witness :
    validateRules default_rules
      ⟨⟨3, 2, some 1, none⟩, "hi", none⟩ "anonymous" 2
      (mupdate (fun _ => none) "anonymous" ⟨0, 1, 0⟩)
      = (ValidationResult.Ignore,
         mupdate (fun _ => none) "anonymous" ⟨0, 1, 0⟩) :=
  c5_rule_chain_short_circuit.2.2.1 [blacklistRule] rateLimitRule
    [lengthFilterRule] ⟨⟨3, 2, some 1, none⟩, "hi", none⟩ "anonymous" 2
    (mupdate (fun _ => none) "anonymous" ⟨0, 1, 0⟩)
    (mupdate (fun _ => none) "anonymous" ⟨0, 1, 0⟩)
    (mupdate (fun _ => none) "anonymous" ⟨0, 1, 0⟩)
    ValidationResult.Ignore rfl rfl rfl (by decide)

/-- C6 counterexample: under the default ContentFilter parameters
(min 1, max 200) this text is 67 characters long — within the claimed
character bounds, so the claim promises `Allow` — yet the rule returns
the message-too-long `Warn`, because `check_content_filter` measures
`text.len()`, the UTF-8 byte length (201 here). -/
theorem c6_char_count_refuted :
    longZhText.length = 67 ∧
    longZhText.utf8ByteSize = 201 ∧
    check_content_filter lengthFilterRule.params longZhText
      = ValidationResult.Warn "消息过长，请简化内容" ∧
    check_content_filter lengthFilterRule.params longZhText
      ≠ ValidationResult.Allow := by
  refine ⟨by decide, by decide, by decide, by decide⟩

/-- C6 (amended): the ContentFilter rule, with `minLength`/`maxLength`
defaulting to 1 and 200, measures the text's UTF-8 byte length (not its
character count): below the minimum → `Ignore`; above the maximum →
`Warn` (the code's message-too-long warning); within bounds → `Allow`;
and, as a `ContentFilter` dispatch in `apply_rule`, it never touches
the stats map. -/
theorem c6_byte_length_filter (p : RuleParams) (text : String) :
    (text.utf8ByteSize < minLenEff p →
      check_content_filter p text = ValidationResult.Ignore) ∧
    (minLenEff p ≤ text.utf8ByteSize → text.utf8ByteSize > maxLenEff p →
      check_content_filter p text
        = ValidationResult.Warn "消息过长，请简化内容") ∧
    (minLenEff p ≤ text.utf8ByteSize → text.utf8ByteSize ≤ maxLenEff p →
      check_content_filter p text = ValidationResult.Allow) ∧
    (∀ (r : ValidationRule) (e : TextInputEvent) (u : String) (now : Int)
        (m : StatsMap),
      r.rule_type = RuleType.ContentFilter →
      apply_rule r e u now m = (check_content_filter r.params e.text, m)) ∧
    minLenEff noParams = 1 ∧ maxLenEff noParams = 200 := by
  refine ⟨?_, ?_, ?_, ?_, rfl, rfl⟩
  · intro h
    simp [check_content_filter, h]
  · intro h0 h
    have hn1 : ¬ text.utf8ByteSize < minLenEff p := by omega
    simp [check_content_filter, hn1, h]
  · intro h1 h2
    have hn1 : ¬ text.utf8ByteSize < minLenEff p := by omega
    have hn2 : ¬ text.utf8ByteSize > maxLenEff p := by omega
    simp [check_content_filter, hn1, hn2]
  · intro r e u now m hr
    simp [apply_rule, hr]

theorem c6_byte_length_filter_witness :
    check_content_filter lengthFilterRule.params "hi"
      = ValidationResult.Allow :=
  (c6_byte_length_filter lengthFilterRule.params "hi").2.2.1
    (by decide) (by decide)

/-- C7: for each Registry handler (LLMResponse, TTSResponse,
AnimationEvent), when the event's session id has no live entry in the
connection map the handler hands nothing to any output worker and
leaves the map unchanged (the total Lean function raises nothing); when
the session id is present, exactly one serialized envelope is handed to
exactly that session's output worker, and the map is still unchanged. -/
theorem c7_registry_lookup_drop_or_deliver (conns : ConnMap) :
    (∀ e : LLMResponseEvent,
      (conns (sidOfMeta e.metadata) = none →
        wsHandleLLM conns e = ([], conns)) ∧
      (∀ uid, conns (sidOfMeta e.metadata) = some uid →
        wsHandleLLM conns e =
          ([(sidOfMeta e.metadata, llmEnvelope e)], conns))) ∧
    (∀ e : TTSResponseEvent,
      (conns (sidOfMeta e.metadata) = none →
        wsHandleTTS conns e = ([], conns)) ∧
      (∀ uid, conns (sidOfMeta e.metadata) = some uid →
        wsHandleTTS conns e =
          ([(sidOfMeta e.metadata, ttsEnvelope e)], conns))) ∧
    (∀ e : AnimationEvent,
      (conns (sidOfMeta e.metadata) = none →
        wsHandleAnim conns e = ([], conns)) ∧
      (∀ uid, conns (sidOfMeta e.metadata) = some uid →
        wsHandleAnim conns e =
          ([(sidOfMeta e.metadata, animEnvelope e)], conns))) := by
  refine ⟨fun e => ⟨?_, ?_⟩, fun e => ⟨?_, ?_⟩, fun e => ⟨?_, ?_⟩⟩
  · intro h; simp [wsHandleLLM, h]
  · intro uid h; simp [wsHandleLLM, h]
  · intro h; simp [wsHandleTTS, h]
  · intro uid h; simp [wsHandleTTS, h]
  · intro h; simp [wsHandleAnim, h]
  · intro uid h; simp [wsHandleAnim, h]

theorem c7_registry_lookup_drop_or_deliver_witness :
    wsHandleLLM (fun n => if n = 7 then some "alice" else none)
        ⟨⟨1, 11, some 7, some "alice"⟩, "hey", "digital_human", none⟩
      = ([(7, llmEnvelope
            ⟨⟨1, 11, some 7, some "alice"⟩, "hey", "digital_human", none⟩)],
         fun n => if n = 7 then some "alice" else none) ∧
    wsHandleLLM (fun n => if n = 7 then some "alice" else none)
        ⟨⟨2, 12, some 9, some "bob"⟩, "late", "digital_human", none⟩
      = ([], fun n => if n = 7 then some "alice" else none) :=
  ⟨((c7_registry_lookup_drop_or_deliver
      (fun n => if n = 7 then some "alice" else none)).1
      ⟨⟨1, 11, some 7, some "alice"⟩, "hey", "digital_human", none⟩).2
      "alice" rfl,
   ((c7_registry_lookup_drop_or_deliver
      (fun n => if n = 7 then some "alice" else none)).1
      ⟨⟨2, 12, some 9, some "bob"⟩, "late", "digital_human", none⟩).1 rfl⟩

/-- C8: on a TextInput for an existing session, the Conversation actor
publishes exactly one LLMResponse carrying `replyFor name text` — a
pure function of the persona name and the input text — with
`model = "digital_human"`, plus exactly two AnimationEvents (the
gesture selection and the expression selection), both computed from the
reply text by the deterministic keyword rules; and the session history
gains exactly a user-role entry with the input text followed by an
assistant-role entry with the reply. -/
theorem c8_text_input_reply_and_events (a : DigitalHumanActor)
    (e : TextInputEvent) (now : Int) (fresh : Nat) (sd : SessionData)
    (hs : a.sessions (sidOfMeta e.metadata) = some sd) :
    (process_text_input a e now fresh).2 =
      [DHOut.llm
        { metadata :=
            mkMeta fresh now (some (sidOfMeta e.metadata)) e.metadata.user_id,
          response := replyFor a.name e.text, model := "digital_human",
          tokens_used := none },
       DHOut.anim (generate_animation_for_response (replyFor a.name e.text)
         (sidOfMeta e.metadata) e.metadata.user_id (fresh + 1) now),
       DHOut.anim (generate_emotion_for_response (replyFor a.name e.text)
         (sidOfMeta e.metadata) e.metadata.user_id (fresh + 2) now)] ∧
    (process_text_input a e now fresh).1.sessions (sidOfMeta e.metadata) =
      some { sd with
        conversation_history := sd.conversation_history ++
          [⟨"user", e.text, now⟩,
           ⟨"assistant", replyFor a.name e.text, now⟩],
        last_activity := now } := by
  constructor
  · rfl
  · simp only [process_text_input, add_message_to_history, hs]
    simp

theorem c8_text_input_reply_and_events_witness :
    (process_text_input
        ⟨"Maya", "friendly",
         fun n => if n = 5 then some ⟨5, "u1", [], 0⟩ else none⟩
        ⟨⟨9, 7, some 5, some "u1"⟩, "hey", none⟩ 7 100).2 =
      [DHOut.llm
        { metadata := mkMeta 100 7 (some 5) (some "u1"),
          response := replyFor "Maya" "hey", model := "digital_human",
          tokens_used := none },
       DHOut.anim (generate_animation_for_response (replyFor "Maya" "hey")
         5 (some "u1") 101 7),
       DHOut.anim (generate_emotion_for_response (replyFor "Maya" "hey")
         5 (some "u1") 102 7)] ∧
    (process_text_input
        ⟨"Maya", "friendly",
         fun n => if n = 5 then some ⟨5, "u1", [], 0⟩ else none⟩
        ⟨⟨9, 7, some 5, some "u1"⟩, "hey", none⟩ 7 100).1.sessions 5 =
      some ⟨5, "u1",
        [⟨"user", "hey", 7⟩, ⟨"assistant", replyFor "Maya" "hey", 7⟩], 7⟩ :=
  c8_text_input_reply_and_events
    ⟨"Maya", "friendly",
     fun n => if n = 5 then some ⟨5, "u1", [], 0⟩ else none⟩
    ⟨⟨9, 7, some 5, some "u1"⟩, "hey", none⟩ 7 100 ⟨5, "u1", [], 0⟩ rfl

lemma apply_rule_text_only (r : ValidationRule) (e1 e2 : TextInputEvent)
    (h : e1.text = e2.text) (u : String) (now : Int) (m : StatsMap) :
    apply_rule r e1 u now m = apply_rule r e2 u now m := by
  unfold apply_rule
  cases r.rule_type <;> simp [h]

lemma validateRules_text_only (rs : List ValidationRule)
    (e1 e2 : TextInputEvent) (h : e1.text = e2.text) (u : String)
    (now : Int) :
    ∀ m : StatsMap,
      validateRules rs e1 u now m = validateRules rs e2 u now m := by
  induction rs with
  | nil => intro m; rfl
  | cons r rs ih =>
    intro m
    by_cases hr : r.enabled
    · rcases hres : apply_rule r e2 u now m with ⟨res, m1⟩
      have ha : apply_rule r e1 u now m = (res, m1) := by
        rw [apply_rule_text_only r e1 e2 h, hres]
      cases res with
      | Allow => simp [validateRules, hr, ha, hres, ih]
      | Ignore => simp [validateRules, hr, ha, hres]
      | Warn s => simp [validateRules, hr, ha, hres]
    · simp [validateRules, hr, ih]

/-- C9: a text event carrying no user id is validated under the fixed
key "anonymous", exactly as if its envelope named that user; hence two
consecutive anonymous messages — here from two different sessions —
share one `UserStats` record, and the second, arriving within the
cooldown of the first accepted one, is Ignored by the default rule
chain just as for a single user. -/
theorem c9_anonymous_key_shared :
    (∀ (v : TextValidator) (e : TextInputEvent) (now : Int),
      e.metadata.user_id = none →
      v.validate e now =
        TextValidator.validate
          ⟨v.rules, v.user_stats⟩
          ⟨⟨e.metadata.id, e.metadata.timestamp, e.metadata.session_id,
            some "anonymous"⟩, e.text, e.language⟩ now) ∧
    ((TextValidator.new.validate ⟨⟨1, 0, some 100, none⟩, "hello", none⟩ 0).1
        = ValidationResult.Allow ∧
      TextValidator.validate
        ⟨default_rules,
         (TextValidator.new.validate
            ⟨⟨1, 0, some 100, none⟩, "hello", none⟩ 0).2⟩
        ⟨⟨2, 2, some 200, none⟩, "hi", none⟩ 2 =
        (ValidationResult.Ignore,
         (TextValidator.new.validate
            ⟨⟨1, 0, some 100, none⟩, "hello", none⟩ 0).2)) := by
  constructor
  · intro v e now h
    show validateRules v.rules e (userKey e) now v.user_stats = _
    have hk : userKey e = "anonymous" := by simp [userKey, h]
    rw [hk]
    exact validateRules_text_only v.rules e
      ⟨⟨e.metadata.id, e.metadata.timestamp, e.metadata.session_id,
        some "anonymous"⟩, e.text, e.language⟩ rfl "anonymous" now
      v.user_stats
  · exact ⟨rfl, rfl⟩

theorem c9_anonymous_key_shared_witness :
    TextValidator.new.validate ⟨⟨1, 0, some 100, none⟩, "hello", none⟩ 0 =
      TextValidator.validate
        ⟨TextValidator.new.rules, TextValidator.new.user_stats⟩
        ⟨⟨1, 0, some 100, some "anonymous"⟩, "hello", none⟩ 0 :=
  c9_anonymous_key_shared.1 TextValidator.new
    ⟨⟨1, 0, some 100, none⟩, "hello", none⟩ 0 rfl

/-- C10: the Registry's raw inbound text handler publishes nothing when
the text parses as JSON but lacks a string "type", carries a "type"
other than "text_input", or carries "text_input" without a string
"content"; it publishes exactly one TextInputEvent built from "content"
and the optional "language" when the shape is right, and exactly one
TextInputEvent carrying the raw text verbatim (no language) when JSON
parsing fails. -/
theorem c10_inbound_text_parse_rules (sid : Nat) (uid : String)
    (text : String) (fresh : Nat) (now : Int) :
    (∀ j : JVal, jgetStr j "type" = none →
      handle_text_message sid uid text (some j) fresh now = []) ∧
    (∀ (j : JVal) (t : String), jgetStr j "type" = some t →
      t ≠ "text_input" →
      handle_text_message sid uid text (some j) fresh now = []) ∧
    (∀ j : JVal, jgetStr j "type" = some "text_input" →
      jgetStr j "content" = none →
      handle_text_message sid uid text (some j) fresh now = []) ∧
    (∀ (j : JVal) (c : String), jgetStr j "type" = some "text_input" →
      jgetStr j "content" = some c →
      handle_text_message sid uid text (some j) fresh now =
        [{ metadata := mkMeta fresh now (some sid) (some uid),
           text := c, language := jgetStr j "language" }]) ∧
    (handle_text_message sid uid text none fresh now =
      [{ metadata := mkMeta fresh now (some sid) (some uid),
         text := text, language := none }]) := by
  refine ⟨?_, ?_, ?_, ?_, rfl⟩
  · intro j h
    simp [handle_text_message, h]
  · intro j t h hne
    simp [handle_text_message, h, hne]
  · intro j h hc
    simp [handle_text_message, h, hc]
  · intro j c h hc
    simp [handle_text_message, h, hc]

theorem c10_inbound_text_parse_rules_witness :
    handle_text_message 4 "u9" "raw"
        (some (JVal.obj
          [("type", JVal.str "text_input"),
           ("content", JVal.str "hello there")])) 31 8 =
      [{ metadata := mkMeta 31 8 (some 4) (some "u9"),
         text := "hello there", language := none }] ∧
    handle_text_message 4 "u9" "raw"
        (some (JVal.obj [("type", JVal.str "ping")])) 31 8 = [] := by
  constructor
  · have h := (c10_inbound_text_parse_rules 4 "u9" "raw" 31 8).2.2.2.1
      (JVal.obj
        [("type", JVal.str "text_input"),
         ("content", JVal.str "hello there")]) "hello there" rfl rfl
    simpa using h
  · exact (c10_inbound_text_parse_rules 4 "u9" "raw" 31 8).2.1
      (JVal.obj [("type", JVal.str "ping")]) "ping" rfl (by decide)

/-- C1: the claim fails on the code.  `badTextEvent` carries a
blacklisted word, so `TextValidator::validate` (had it been consulted)
returns `Warn`; yet the bus's TextInputEvent handler — with both
targets registered — forwards the event unmodified to the Conversation
target and emits nothing else: no validator runs (the `EventBus` struct
does not even hold one; `TextValidator` has no caller in the crate),
and no `validation_system` LLMResponse is synthesized for the
Registry. -/
theorem c1_router_text_input_bypasses_validator :
    (TextValidator.new.validate badTextEvent 0).1
      = ValidationResult.Warn "包含敏感词: 垃圾" ∧
    EventBus.handle_text_input ⟨some (), some ()⟩ badTextEvent
      = [BusOut.toConversation badTextEvent] := by
  exact ⟨rfl, rfl⟩
